import Mathlib

/-!
Verification of the IM2 queue service (src/modules/queue/main.py).

The queue service is a per-job state registry: a `jobs` row (status, error,
metadata bag, timestamps) together with an append-only `job_history` table.
We shallow-embed the service per job: a `JobState` carries the job row and
its ordered history (history list order corresponds to the SERIAL id of the
`job_history` table, i.e. insertion order). The HTTP handlers `create_job`,
`update_job`, `retry_job` and `cancel_job` become pure functions from the
pause flag, the current `JobState` and the request body to
`Except QueueError JobState`; the `NotFound` (absent row) and `Conflict`
(duplicate id on create) branches concern the multi-job table and fall away
in the per-job view. Timestamps are abstracted as naturals, JSON metadata
values as an arbitrary type `V` (a bag is an association list in insertion
order, mirroring Python dict order).
-/

/-- Job status enum, from class JobStatus of src/modules/queue/main.py. -/
inductive JobStatus where
  | submitted
  | categorizing
  | categorized
  | metadata_extracting
  | metadata_extracted
  | staging
  | staged
  | splitting
  | split
  | recombining
  | recombined
  | organizing
  | complete
  | failed
  | canceled
deriving DecidableEq, Repr

/-- Metadata bag: a Python dict as an association list in insertion order. -/
abbrev Bag (V : Type) : Type := List (String × V)

/-- Python `d[k] = v` on a dict rendered as an association list: if the key
is present its value is replaced in place, otherwise the pair is appended. -/
def bagInsert {V : Type} (b : Bag V) (k : String) (v : V) : Bag V :=
  if b.any (fun p => p.1 = k) then
    b.map (fun p => if p.1 = k then (k, v) else p)
  else
    b ++ [(k, v)]

/-- Python `base.update(patch)`: key-overwriting merge, later writes win. -/
def bagUpdate {V : Type} (b patch : Bag V) : Bag V :=
  patch.foldl (fun acc p => bagInsert acc p.1 p.2) b

/-- Python dict lookup `b[k]` (first pair with the key, as keys are unique
in any bag produced by the service). -/
def bagLookup {V : Type} (b : Bag V) (k : String) : Option V :=
  (b.find? (fun p => p.1 = k)).map (fun p => p.2)

/-- Job row of the jobs table, from class JobModel / the jobs schema of
src/modules/queue/main.py (identity columns job_uuid, user_id, file_path,
filename, engine, trace_id are never read by the transition logic and are
dropped from the per-job view). -/
structure Job (V : Type) where
  status : JobStatus
  created_at : Nat
  updated_at : Nat
  error : Option String
  metadata : Bag V
deriving DecidableEq

/-- Row of the job_history table (id SERIAL is the position in the list). -/
structure HistoryEntry (V : Type) where
  status : JobStatus
  timestamp : Nat
  metadata : Bag V
  error : Option String
deriving DecidableEq

/-- Per-job view of the registry: the jobs row and its history rows in
insertion order. -/
structure JobState (V : Type) where
  job : Job V
  history : List (HistoryEntry V)
deriving DecidableEq

/-- Request body of PUT /api/jobs/:id, from class JobUpdate of
src/modules/queue/main.py (metadata and error default to None). -/
structure JobUpdate (V : Type) where
  status : JobStatus
  metadata : Option (Bag V) := none
  error : Option String := none
deriving DecidableEq

/-- Errors raised by the handlers, each carrying the HTTP status the code
puts in the corresponding HTTPException. -/
inductive QueueError where
  | pipelinePaused
  | jobExists
  | onlyFailedCanRetry
  | alreadyCompletedOrCanceled
deriving DecidableEq, Repr

/-- HTTP status code attached to each HTTPException in the source. -/
def QueueError.statusCode : QueueError → Nat
  | .pipelinePaused => 503
  | .jobExists => 409
  | .onlyFailedCanRetry => 400
  | .alreadyCompletedOrCanceled => 400

/-- Fresh state written by create_job: the jobs row inserted with status
submitted, error NULL, metadata {}, plus the single initial history row
(src/modules/queue/main.py lines 247-266). -/
def initState (V : Type) (t : Nat) : JobState V :=
  { job := { status := .submitted, created_at := t, updated_at := t,
             error := none, metadata := [] },
    history := [{ status := .submitted, timestamp := t, metadata := [],
                  error := none }] }

/-- create_job of src/modules/queue/main.py (lines 218-294): rejected with
503 while the pipeline is paused, otherwise inserts the job and its first
history row. -/
def create_job (V : Type) (paused : Bool) (t : Nat) :
    Except QueueError (JobState V) :=
  if paused then .error .pipelinePaused
  else .ok (initState V t)

/-- Python truthiness of the optional metadata patch in update_job: the
merge runs only under `if job_update.metadata:`, which skips both None and
the empty dict. -/
def applyPatch {V : Type} (m : Bag V) (p : Option (Bag V)) : Bag V :=
  match p with
  | none => m
  | some patch => if patch.isEmpty then m else bagUpdate m patch

/-- update_job of src/modules/queue/main.py (lines 371-454), the PUT
/api/jobs/:id handler: rejected with 503 while paused unless the requested
status is failed or canceled; otherwise unconditionally sets status,
updated_at, merged metadata and the request error on the jobs row and
appends one matching history row in the same transaction. There is no
check against the current status. -/
def update_job {V : Type} (paused : Bool) (st : JobState V)
    (u : JobUpdate V) (now : Nat) : Except QueueError (JobState V) :=
  if paused ∧ u.status ≠ .failed ∧ u.status ≠ .canceled then
    .error .pipelinePaused
  else
    let m := applyPatch st.job.metadata u.metadata
    let job' : Job V :=
      { st.job with status := u.status, updated_at := now, metadata := m,
                    error := u.error }
    let entry : HistoryEntry V :=
      { status := u.status, timestamp := now, metadata := m,
        error := u.error }
    .ok { job := job', history := st.history ++ [entry] }

/-- Status the code rewinds to on retry: the SELECT picks the history row
with the latest timestamp whose status is not failed (ORDER BY timestamp
DESC LIMIT 1); since history timestamps are written in insertion order this
is the last such row of the list, defaulting to submitted when none exists
(src/modules/queue/main.py lines 484-495). -/
def rewindStatus {V : Type} (h : List (HistoryEntry V)) : JobStatus :=
  match h.reverse.find? (fun e => e.status ≠ .failed) with
  | some e => e.status
  | none => .submitted

/-- retry_job of src/modules/queue/main.py (lines 456-546), the POST
/api/jobs/:id/retry handler: 503 while paused, 400 unless the job's status
is exactly failed; otherwise sets the status to the rewind status, clears
error to NULL, keeps metadata, and appends one history row with the rewind
status, the unchanged metadata and no error. -/
def retry_job {V : Type} (paused : Bool) (st : JobState V) (now : Nat) :
    Except QueueError (JobState V) :=
  if paused then .error .pipelinePaused
  else if st.job.status ≠ .failed then .error .onlyFailedCanRetry
  else
    let rs := rewindStatus st.history
    let job' : Job V :=
      { st.job with status := rs, updated_at := now, error := none }
    let entry : HistoryEntry V :=
      { status := rs, timestamp := now, metadata := st.job.metadata,
        error := none }
    .ok { job := job', history := st.history ++ [entry] }

/-- cancel_job of src/modules/queue/main.py (lines 548-621), the POST
/api/jobs/:id/cancel handler: no pause check; 400 when the job is already
complete or canceled; otherwise sets status canceled and updated_at
(error and metadata untouched) and appends one canceled history row whose
metadata is the job's and whose error column is left NULL. -/
def cancel_job {V : Type} (st : JobState V) (now : Nat) :
    Except QueueError (JobState V) :=
  if st.job.status = .complete ∨ st.job.status = .canceled then
    .error .alreadyCompletedOrCanceled
  else
    let job' : Job V :=
      { st.job with status := .canceled, updated_at := now }
    let entry : HistoryEntry V :=
      { status := .canceled, timestamp := now,
        metadata := st.job.metadata, error := none }
    .ok { job := job', history := st.history ++ [entry] }

/-- Mutating request against an existing job. -/
inductive Op (V : Type) where
  | update (u : JobUpdate V) (now : Nat)
  | retry (now : Nat)
  | cancel (now : Nat)

/-- Dispatch of a mutating request to its handler under a pause-flag value. -/
def applyOp {V : Type} (paused : Bool) (st : JobState V) :
    Op V → Except QueueError (JobState V)
  | .update u now => update_job paused st u now
  | .retry now => retry_job paused st now
  | .cancel now => cancel_job st now

/-- States of a job that the service can actually produce: the state
written by create_job followed by any sequence of successful mutating
requests, under arbitrary pause-flag history. -/
inductive Reachable (V : Type) : JobState V → Prop where
  | created (t : Nat) : Reachable V (initState V t)
  | step (st st' : JobState V) (paused : Bool) (op : Op V)
      (hst : Reachable V st) (hok : applyOp paused st op = .ok st') :
      Reachable V st'

/-- Run a list of PUT requests (body, timestamp) in order, stopping at the
first failure. -/
def runUpdates {V : Type} (paused : Bool) (st : JobState V) :
    List (JobUpdate V × Nat) → Except QueueError (JobState V)
  | [] => .ok st
  | s :: rest =>
      match update_job paused st s.1 s.2 with
      | .error e => .error e
      | .ok st' => runUpdates paused st' rest

/-- Run a list of mutating requests in order (pause flag per request),
stopping at the first failure. -/
def runOps {V : Type} (st : JobState V) :
    List (Bool × Op V) → Except QueueError (JobState V)
  | [] => .ok st
  | s :: rest =>
      match applyOp s.1 st s.2 with
      | .error e => .error e
      | .ok st' => runOps st' rest

/-- Modelled from the spec (the legal transition set is absent from the
source): the immediate forward successor of each stage in the pipeline
chain, none for the terminal stages complete, failed, canceled. -/
def forwardSuccessor : JobStatus → Option JobStatus
  | .submitted => some .categorizing
  | .categorizing => some .categorized
  | .categorized => some .metadata_extracting
  | .metadata_extracting => some .metadata_extracted
  | .metadata_extracted => some .staging
  | .staging => some .staged
  | .staged => some .splitting
  | .splitting => some .split
  | .split => some .recombining
  | .recombining => some .recombined
  | .recombined => some .organizing
  | .organizing => some .complete
  | .complete => none
  | .failed => none
  | .canceled => none

/-- Modelled from the spec (absent from the source): a target stage is a
legal successor of the current stage when it is the immediate forward
successor, or the current stage is non-terminal and the target is failed or
canceled. -/
def specLegalTarget (cur target : JobStatus) : Bool :=
  (forwardSuccessor cur == some target) ||
    ((forwardSuccessor cur).isSome &&
      (target == .failed || target == .canceled))

/-- Modelled from the spec (absent from the source): the retry rewind
target per §4.5 — the stage of the most recent history entry whose stage is
neither failed nor canceled, defaulting to submitted. -/
def specRewindTarget {V : Type} (h : List (HistoryEntry V)) : JobStatus :=
  match h.reverse.find? (fun e => e.status ≠ .failed ∧ e.status ≠ .canceled)
  with
  | some e => e.status
  | none => .submitted

/-- Rewind status written as the last element of the failed-filtered
history: an equivalent reading of the ORDER BY timestamp DESC LIMIT 1
query, used to state the retry theorem independently of rewindStatus. -/
def lastNonFailed {V : Type} (h : List (HistoryEntry V)) : JobStatus :=
  match (h.filter (fun e => e.status ≠ .failed)).getLast? with
  | some e => e.status
  | none => .submitted

/-- State after update_job false (initState Nat 0) toCategorizing 1:
fixture for the compare-and-set counterexample and witness. -/
def categorizingState : JobState Nat :=
  { job := { status := .categorizing, created_at := 0, updated_at := 1,
             error := none, metadata := [] },
    history := [{ status := .submitted, timestamp := 0, metadata := [],
                  error := none },
                { status := .categorizing, timestamp := 1, metadata := [],
                  error := none }] }

/-- State after cancel_job (initState Nat 0) 1: a job in stage canceled. -/
def canceledState : JobState Nat :=
  { job := { status := .canceled, created_at := 0, updated_at := 1,
             error := none, metadata := [] },
    history := [{ status := .submitted, timestamp := 0, metadata := [],
                  error := none },
                { status := .canceled, timestamp := 1, metadata := [],
                  error := none }] }

/-- A job in stage failed with history [submitted, failed], as produced by
create followed by a failing transition. -/
def failedState : JobState Nat :=
  { job := { status := .failed, created_at := 0, updated_at := 1,
             error := some "decoder crashed", metadata := [] },
    history := [{ status := .submitted, timestamp := 0, metadata := [],
                  error := none },
                { status := .failed, timestamp := 1, metadata := [],
                  error := some "decoder crashed" }] }

/-- Run create → cancel → transition to failed: yields a failed job whose
history contains a canceled entry, separating the two rewind-target
readings. -/
def cancelThenFailRun : Except QueueError (JobState Nat) :=
  runOps (initState Nat 0)
    [(false, .cancel 1),
     (false, .update { status := .failed, error := some "boom" } 2)]

/-- Run create → cancel → cancel: the second cancel of an already canceled
job. -/
def doubleCancelRun : Except QueueError (JobState Nat) :=
  runOps (initState Nat 0) [(false, .cancel 1), (false, .cancel 2)]

/-- Request body storing an error string alongside a non-failed stage. -/
def categorizedWithError : JobUpdate Nat :=
  { status := .categorized, error := some "transient decode warning" }

/-- State after update_job false (initState Nat 0) categorizedWithError 1. -/
def categorizedErrorState : JobState Nat :=
  { job := { status := .categorized, created_at := 0, updated_at := 1,
             error := some "transient decode warning", metadata := [] },
    history := [{ status := .submitted, timestamp := 0, metadata := [],
                  error := none },
                { status := .categorized, timestamp := 1, metadata := [],
                  error := some "transient decode warning" }] }

/-- Bag-patch scenario of the spec: {a:1}, then {b:2}, then {a:3}. -/
def bagScenario : List (JobStatus × Bag Nat × Nat) :=
  [(.categorizing, [("a", 1)], 1),
   (.categorized, [("b", 2)], 2),
   (.metadata_extracted, [("a", 3)], 3)]

/-- PUT request carrying a given target stage and bag patch. -/
def patchStep {V : Type} (s : JobStatus × Bag V × Nat) :
    JobUpdate V × Nat :=
  ({ status := s.1, metadata := some s.2.1, error := none }, s.2.2)

/-- Finding the first match in the reversed list is taking the last match:
the ORDER BY timestamp DESC LIMIT 1 query read two equivalent ways. -/
theorem reverse_find_eq_filter_getLast {α : Type} (p : α → Bool)
    (l : List α) : l.reverse.find? p = (l.filter p).getLast? := by
  induction l using List.reverseRecOn with
  | nil => rfl
  | append_singleton l a ih =>
    rw [List.reverse_concat, List.filter_append]
    by_cases hp : p a
    · rw [List.find?_cons_of_pos _ hp, List.filter_cons_of_pos hp]
      simp [List.getLast?_concat]
    · rw [List.find?_cons_of_neg _ hp, List.filter_cons_of_neg hp]
      simp only [List.filter_nil, List.append_nil]
      exact ih

/-- Rewind status of retry_job, rephrased as the last element of the
failed-filtered history. -/
theorem rewindStatus_eq_lastNonFailed {V : Type}
    (h : List (HistoryEntry V)) : rewindStatus h = lastNonFailed h := by
  unfold rewindStatus lastNonFailed
  rw [reverse_find_eq_filter_getLast]

/-- Overwriting an existing key in place leaves the first match of that key
holding the new value. -/
theorem find_map_overwrite {V : Type} (b : Bag V) (k : String) (v : V)
    (h : b.any (fun p => p.1 = k) = true) :
    (b.map (fun p => if p.1 = k then (k, v) else p)).find?
        (fun p => p.1 = k) = some (k, v) := by
  induction b with
  | nil => simp at h
  | cons q t ih =>
    by_cases hq : q.1 = k
    · simp only [List.map_cons, if_pos hq]
      exact List.find?_cons_of_pos _ (by simp)
    · simp only [List.map_cons, if_neg hq]
      rw [List.find?_cons_of_neg _ (by simpa using hq)]
      exact ih (by simpa [hq] using h)

/-- Overwriting key k does not touch the first match of any other key. -/
theorem find_map_overwrite_ne {V : Type} (b : Bag V) (k k2 : String)
    (v : V) (h : k2 ≠ k) :
    (b.map (fun p => if p.1 = k then (k, v) else p)).find?
        (fun p => p.1 = k2) = b.find? (fun p => p.1 = k2) := by
  induction b with
  | nil => rfl
  | cons q t ih =>
    have hk2 : ¬k = k2 := fun hkk => h hkk.symm
    by_cases hq : q.1 = k
    · simp only [List.map_cons, if_pos hq]
      rw [List.find?_cons_of_neg _ (by simpa using hk2),
        List.find?_cons_of_neg _ (by simp [hq, hk2])]
      exact ih
    · simp only [List.map_cons, if_neg hq]
      by_cases hq2 : q.1 = k2
      · rw [List.find?_cons_of_pos _ (by simpa using hq2),
          List.find?_cons_of_pos _ (by simpa using hq2)]
      · rw [List.find?_cons_of_neg _ (by simpa using hq2),
          List.find?_cons_of_neg _ (by simpa using hq2)]
        exact ih

/-- Later write wins: after bagInsert b k v, key k maps to v. -/
theorem bagLookup_bagInsert_self {V : Type} (b : Bag V) (k : String)
    (v : V) : bagLookup (bagInsert b k v) k = some v := by
  unfold bagInsert bagLookup
  by_cases h : b.any (fun p => p.1 = k) = true
  · rw [if_pos h, find_map_overwrite b k v h]
    rfl
  · rw [if_neg h, List.find?_append]
    have hnone : b.find? (fun p => p.1 = k) = none := by
      rw [List.find?_eq_none]
      intro x hx hpx
      exact h (List.any_eq_true.mpr ⟨x, hx, hpx⟩)
    rw [hnone]
    simp

/-- Earlier writes are preserved: bagInsert b k v leaves other keys alone. -/
theorem bagLookup_bagInsert_of_ne {V : Type} (b : Bag V) (k k2 : String)
    (v : V) (h : k2 ≠ k) :
    bagLookup (bagInsert b k v) k2 = bagLookup b k2 := by
  unfold bagInsert bagLookup
  by_cases hb : b.any (fun p => p.1 = k) = true
  · rw [if_pos hb, find_map_overwrite_ne b k k2 v h]
  · rw [if_neg hb, List.find?_append]
    have hk2 : ¬k = k2 := fun hkk => h hkk.symm
    have hsingle : [(k, v)].find? (fun p => p.1 = k2) = none := by
      simp [hk2]
    rw [hsingle]
    cases b.find? (fun p => p.1 = k2) <;> rfl

/-- Merging an explicit patch is the key-overwriting merge, the Python
truthiness guard notwithstanding (an empty patch merges to the base). -/
theorem applyPatch_some {V : Type} (m p : Bag V) :
    applyPatch m (some p) = bagUpdate m p := by
  cases p with
  | nil => rfl
  | cons q t => rfl

/-- Metadata after a run of PUT requests is the left fold of the patches
over the starting bag (with the pause switch off every request succeeds). -/
theorem runUpdates_metadata {V : Type} (st : JobState V)
    (steps : List (JobUpdate V × Nat)) :
    (runUpdates false st steps).map (fun s => s.job.metadata) =
      .ok (steps.foldl (fun b s => applyPatch b s.1.metadata)
        st.job.metadata) := by
  induction steps generalizing st with
  | nil => rfl
  | cons s rest ih =>
    simp only [runUpdates, update_job, Bool.false_eq_true, false_and,
      if_false, List.foldl_cons]
    exact ih _

/-- Every successful mutating request appends exactly one history row,
whose status is the job's new status. -/
theorem applyOp_ok_append {V : Type} (paused : Bool) (st st' : JobState V)
    (op : Op V) (h : applyOp paused st op = .ok st') :
    ∃ e, st'.history = st.history ++ [e] ∧ st'.job.status = e.status := by
  cases op with
  | update u now =>
    simp only [applyOp] at h
    unfold update_job at h
    split at h
    · exact Except.noConfusion h
    · cases h
      exact ⟨_, rfl, rfl⟩
  | retry now =>
    simp only [applyOp] at h
    unfold retry_job at h
    split at h
    · exact Except.noConfusion h
    · split at h
      · exact Except.noConfusion h
      · cases h
        exact ⟨_, rfl, rfl⟩
  | cancel now =>
    simp only [applyOp] at h
    unfold cancel_job at h
    split at h
    · exact Except.noConfusion h
    · cases h
      exact ⟨_, rfl, rfl⟩

/-- C1 counterexample: a job in stage submitted is transitioned straight to
complete — not in the legal successor set of submitted — yet update_job
succeeds (no IllegalTransition, no 409) and both the job row and the
history change. -/
theorem C1_counterexample :
    specLegalTarget .submitted .complete = false ∧
    (update_job false (initState Nat 0) { status := .complete } 1).map
        (fun s => (s.job.status, s.history.length)) =
      .ok (.complete, 2) := by
  exact ⟨rfl, rfl⟩

/-- C1 (amended): update_job performs no transition-legality validation:
even when the requested target stage is not in the legal successor set of
the current stage, the request succeeds (pause gate off), the job row takes
the target stage, and one history entry is appended. -/
theorem C1_update_job_accepts_illegal_target {V : Type} (st : JobState V)
    (u : JobUpdate V) (now : Nat)
    (h : specLegalTarget st.job.status u.status = false) :
    ∃ st', update_job false st u now = .ok st' ∧
      st'.job.status = u.status ∧
      st'.history.length = st.history.length + 1 := by
  refine ⟨_, rfl, rfl, ?_⟩
  simp [update_job]

/-- C1 witness: the amended theorem applied to a fresh job and a request
jumping directly to complete. -/
theorem C1_witness :
    ∃ st', update_job false (initState Nat 0) { status := .complete } 1 =
        .ok st' ∧
      st'.job.status = JobStatus.complete ∧
      st'.history.length = (initState Nat 0).history.length + 1 :=
  C1_update_job_accepts_illegal_target (initState Nat 0)
    { status := .complete } 1 rfl

/-- C2 counterexample: two claims of the same job out of the same stage
both succeed. The first claim (submitted → categorizing) succeeds and
leaves the job in categorizing — no longer in the claimed-from stage — yet
the identical second claim also succeeds instead of failing Contended. -/
theorem C2_counterexample :
    update_job false (initState Nat 0) { status := .categorizing } 1 =
      .ok categorizingState ∧
    categorizingState.job.status ≠ JobStatus.submitted ∧
    (update_job false categorizingState { status := .categorizing } 2).map
        (fun s => s.job.status) = .ok .categorizing := by
  refine ⟨rfl, ?_, rfl⟩
  decide

/-- C2 (amended): the registry offers no compare-and-set claim operation;
a claim is a plain update_job, which never inspects the current stage:
after one claim succeeds, the same claim issued again also succeeds, so two
claims for the same job from the same stage can both succeed. -/
theorem C2_no_compare_and_set {V : Type} (st st' : JobState V)
    (u : JobUpdate V) (t t' : Nat)
    (h : update_job false st u t = .ok st') :
    ∃ st2, update_job false st' u t' = .ok st2 ∧
      st2.job.status = u.status :=
  ⟨_, rfl, rfl⟩

/-- C2 witness: the amended theorem applied to the submitted → categorizing
claim of a fresh job, repeated. -/
theorem C2_witness :
    ∃ st2, update_job false categorizingState
        { status := .categorizing } 2 = .ok st2 ∧
      st2.job.status = JobStatus.categorizing :=
  C2_no_compare_and_set (initState Nat 0) categorizingState
    { status := .categorizing } 1 2 rfl

/-- C3 counterexample: while paused, a transition to the terminal stage
complete is rejected with PipelinePaused (503), contradicting the claim
that every terminal target is exempt from the pause gate. -/
theorem C3_counterexample :
    update_job true (initState Nat 0) { status := JobStatus.complete } 1 =
      .error .pipelinePaused ∧
    QueueError.pipelinePaused.statusCode = 503 := by
  exact ⟨rfl, rfl⟩

/-- C3 (amended): while the pause flag is set, create_job fails with
PipelinePaused, and a transition succeeds exactly when its target stage is
failed or canceled — a transition to complete, like every other target, is
rejected with PipelinePaused. -/
theorem C3_pause_allows_only_failed_canceled {V : Type} (st : JobState V)
    (u : JobUpdate V) (t t0 : Nat) :
    create_job V true t0 = .error .pipelinePaused ∧
    ((∃ st', update_job true st u t = .ok st') ↔
      (u.status = JobStatus.failed ∨ u.status = JobStatus.canceled)) := by
  refine ⟨rfl, ?_, ?_⟩
  · rintro ⟨st', h⟩
    by_contra hor
    push_neg at hor
    unfold update_job at h
    rw [if_pos ⟨rfl, hor.1, hor.2⟩] at h
    exact Except.noConfusion h
  · intro hor
    have hcond : ¬((true : Bool) = true ∧ u.status ≠ JobStatus.failed ∧
        u.status ≠ JobStatus.canceled) := by
      rintro ⟨-, h1, h2⟩
      rcases hor with h | h
      · exact h1 h
      · exact h2 h
    exact ⟨_, by unfold update_job; rw [if_neg hcond]⟩

/-- C4 counterexample: create → cancel → transition to failed leaves a
history [submitted, canceled, failed]. The claim's rewind target (most
recent entry neither failed nor canceled) is submitted, but retry moves
the job to canceled: the code's history query excludes only failed. -/
theorem C4_counterexample :
    (cancelThenFailRun.bind fun st =>
        (retry_job false st 3).map fun s => s.job.status) =
      .ok .canceled ∧
    cancelThenFailRun.map (fun st => specRewindTarget st.history) =
      .ok .submitted ∧
    JobStatus.canceled ≠ JobStatus.submitted := by
  refine ⟨rfl, rfl, ?_⟩
  decide

/-- C4 (amended): retry of a job in failed takes as rewind target the
stage of the most recent history entry whose stage is not failed — a
canceled entry qualifies — defaulting to submitted when no such entry
exists; it sets the job's stage to that target, clears the error, keeps
the metadata, and appends one history entry recording the target. -/
theorem C4_retry_rewinds_to_last_non_failed {V : Type} (st : JobState V)
    (t : Nat) (h : st.job.status = JobStatus.failed) :
    ∃ st', retry_job false st t = .ok st' ∧
      st'.job.status = lastNonFailed st.history ∧
      st'.job.error = none ∧
      st'.job.metadata = st.job.metadata ∧
      st'.history = st.history ++
        [{ status := lastNonFailed st.history, timestamp := t,
           metadata := st.job.metadata, error := none }] := by
  have hrw := rewindStatus_eq_lastNonFailed st.history
  refine ⟨⟨{ status := rewindStatus st.history,
             created_at := st.job.created_at, updated_at := t,
             error := none, metadata := st.job.metadata },
           st.history ++
             [{ status := rewindStatus st.history, timestamp := t,
                metadata := st.job.metadata, error := none }]⟩,
         ?_, hrw, rfl, rfl, ?_⟩
  · unfold retry_job
    rw [if_neg (show ¬(st.job.status ≠ JobStatus.failed) from
      fun hn => hn h)]
    rfl
  · rw [← hrw]

/-- C4 witness: the amended theorem applied to a job that failed right
after submission; the rewind target is submitted. -/
theorem C4_witness :
    failedState.job.status = JobStatus.failed ∧
    ∃ st', retry_job false failedState 5 = .ok st' ∧
      st'.job.status = lastNonFailed failedState.history ∧
      st'.job.error = none ∧
      st'.job.metadata = failedState.job.metadata ∧
      st'.history = failedState.history ++
        [{ status := lastNonFailed failedState.history, timestamp := 5,
           metadata := failedState.job.metadata, error := none }] :=
  ⟨rfl, C4_retry_rewinds_to_last_non_failed failedState 5 rfl⟩

/-- C5 counterexample: a transition request whose target equals the
current stage (submitted → submitted on a fresh job) is not a no-op: it
appends a history entry (length 1 → 2) and bumps updated_at (0 → 1). -/
theorem C5_counterexample :
    (initState Nat 0).job.status = JobStatus.submitted ∧
    (initState Nat 0).history.length = 1 ∧
    (initState Nat 0).job.updated_at = 0 ∧
    (update_job false (initState Nat 0) { status := .submitted } 1).map
        (fun s => (s.history.length, s.job.updated_at)) = .ok (2, 1) := by
  exact ⟨rfl, rfl, rfl, rfl⟩

/-- C5 (amended): a transition request whose target stage equals the job's
current stage is processed like any other successful transition: it
returns the job still in that stage but appends one history entry and sets
updated_at to the request time — it is not a no-op. -/
theorem C5_same_stage_request_not_noop {V : Type} (st : JobState V)
    (u : JobUpdate V) (t : Nat) (h : u.status = st.job.status) :
    ∃ st', update_job false st u t = .ok st' ∧
      st'.job.status = st.job.status ∧
      st'.history.length = st.history.length + 1 ∧
      st'.job.updated_at = t := by
  refine ⟨_, rfl, h, ?_, rfl⟩
  simp [update_job]

/-- C5 witness: the amended theorem applied to a fresh submitted job and a
submitted-targeted request. -/
theorem C5_witness :
    ∃ st', update_job false (initState Nat 0) { status := .submitted } 1 =
        .ok st' ∧
      st'.job.status = (initState Nat 0).job.status ∧
      st'.history.length = (initState Nat 0).history.length + 1 ∧
      st'.job.updated_at = 1 :=
  C5_same_stage_request_not_noop (initState Nat 0)
    { status := .submitted } 1 rfl

/-- C6 counterexample: cancel of a fresh job succeeds (stage canceled,
history length 2), but the second cancel is rejected with HTTP 400
("Job is already completed or canceled") rather than succeeding
idempotently with 200. -/
theorem C6_counterexample :
    (runOps (initState Nat 0) [(false, .cancel 1)]).map
        (fun s => (s.job.status, s.history.length)) =
      .ok (.canceled, 2) ∧
    doubleCancelRun = .error .alreadyCompletedOrCanceled ∧
    QueueError.alreadyCompletedOrCanceled.statusCode = 400 := by
  exact ⟨rfl, rfl, rfl⟩

/-- C6 (amended): cancel of a job that is already in stage canceled is
rejected with HTTP 400 (alreadyCompletedOrCanceled); the job row and its
history are left unchanged. -/
theorem C6_recancel_rejected {V : Type} (st : JobState V) (t : Nat)
    (h : st.job.status = JobStatus.canceled) :
    cancel_job st t = .error .alreadyCompletedOrCanceled ∧
    QueueError.alreadyCompletedOrCanceled.statusCode = 400 := by
  refine ⟨?_, rfl⟩
  unfold cancel_job
  rw [if_pos (Or.inr h)]

/-- C6 witness: the amended theorem applied to a canceled job. -/
theorem C6_witness :
    cancel_job canceledState 2 = .error .alreadyCompletedOrCanceled ∧
    QueueError.alreadyCompletedOrCanceled.statusCode = 400 :=
  C6_recancel_rejected canceledState 2 rfl

/-- C7 counterexample: retry of a job in stage canceled is rejected with
HTTP 400 ("Only failed jobs can be retried"), contradicting the claim that
retry succeeds on canceled jobs. -/
theorem C7_counterexample :
    canceledState.job.status = JobStatus.canceled ∧
    retry_job false canceledState 2 = .error .onlyFailedCanRetry ∧
    QueueError.onlyFailedCanRetry.statusCode = 400 := by
  exact ⟨rfl, rfl, rfl⟩

/-- C7 (amended): with the pipeline not paused, retry succeeds exactly on
jobs whose current stage is failed; for a job in any other stage —
including canceled, complete and all non-terminal stages — it is rejected
with HTTP 400 and the job is unchanged. -/
theorem C7_retry_iff_failed {V : Type} (st : JobState V) (t : Nat) :
    (∃ st', retry_job false st t = .ok st') ↔
      st.job.status = JobStatus.failed := by
  constructor
  · rintro ⟨st', h⟩
    by_contra hne
    unfold retry_job at h
    rw [if_pos (show st.job.status ≠ JobStatus.failed from hne)] at h
    exact Except.noConfusion h
  · intro hf
    exact ⟨_, by
      unfold retry_job
      rw [if_neg (show ¬(st.job.status ≠ JobStatus.failed) from
        fun hn => hn hf)]
      rfl⟩

/-- C8: invariant of the registry — in every reachable state the job's
stage equals the stage of the history entry with the greatest sequence
number (the last one), and every successful mutating request appends
exactly one history entry (in the same transaction as the job update in
the source) whose stage is the job's new stage. -/
theorem C8_stage_matches_last_history {V : Type} (st : JobState V)
    (h : Reachable V st) :
    st.history.getLast?.map (fun e => e.status) =
      some st.job.status ∧
    ∀ (paused : Bool) (op : Op V) (st' : JobState V),
      applyOp paused st op = .ok st' →
      ∃ e, st'.history = st.history ++ [e] ∧ st'.job.status = e.status := by
  refine ⟨?_, fun p op st' hok => applyOp_ok_append p st st' op hok⟩
  induction h with
  | created t => rfl
  | step st st' paused op hst hok ih =>
    obtain ⟨e, he, hs⟩ := applyOp_ok_append paused st st' op hok
    rw [he, List.getLast?_concat, hs]
    rfl

/-- C8 witness: the invariant instantiated at the state created for a
fresh job. -/
theorem C8_witness :
    (initState Nat 0).history.getLast?.map (fun e => e.status) =
      some (initState Nat 0).job.status :=
  (C8_stage_matches_last_history (initState Nat 0) (.created 0)).1

/-- C9: starting from the empty bag of a created job, the bag after any
run of successful transitions carrying patches p1..pn is the left fold of
the key-overwriting merge of p1..pn over the empty bag; the merge itself
overwrites a key written earlier when a later patch writes the same key
(later value wins) and preserves every other key. -/
theorem C9_bag_is_left_fold_of_patches {V : Type} (t0 : Nat)
    (steps : List (JobStatus × Bag V × Nat)) :
    (runUpdates false (initState V t0) (steps.map patchStep)).map
        (fun s => s.job.metadata) =
      .ok ((steps.map (fun s => s.2.1)).foldl bagUpdate []) ∧
    (∀ (b : Bag V) (k : String) (v : V),
        bagLookup (bagInsert b k v) k = some v) ∧
    (∀ (b : Bag V) (k k2 : String) (v : V), k2 ≠ k →
        bagLookup (bagInsert b k v) k2 = bagLookup b k2) := by
  refine ⟨?_, bagLookup_bagInsert_self, bagLookup_bagInsert_of_ne⟩
  rw [runUpdates_metadata]
  simp [List.foldl_map, applyPatch_some, patchStep, initState]

/-- C9 witness: the fold law applied to the literal scenario of the spec
— patches {a:1}, {b:2}, {a:3} — whose folded bag is {a:3, b:2}. -/
theorem C9_witness :
    (runUpdates false (initState Nat 0) (bagScenario.map patchStep)).map
        (fun s => s.job.metadata) =
      .ok ((bagScenario.map (fun s => s.2.1)).foldl bagUpdate []) ∧
    (bagScenario.map (fun s => s.2.1)).foldl bagUpdate [] =
      [("a", 3), ("b", 2)] :=
  ⟨(C9_bag_is_left_fold_of_patches 0 bagScenario).1, by rfl⟩

/-- C10: every successful update_job stores exactly the request body's
error value in the job row (null when the field was omitted): a previously
recorded error is cleared unless the request supplies a new one, and an
error string can sit alongside a non-failed stage. -/
theorem C10_error_mirrors_request {V : Type} (paused : Bool)
    (st : JobState V) (u : JobUpdate V) (t : Nat) (st' : JobState V)
    (h : update_job paused st u t = .ok st') :
    st'.job.error = u.error := by
  unfold update_job at h
  split at h
  · exact Except.noConfusion h
  · cases h
    rfl

/-- C10 witness: a request targeting the non-failed stage categorized with
an error string; the stored error is exactly that string. -/
theorem C10_witness :
    categorizedErrorState.job.error = some "transient decode warning" :=
  C10_error_mirrors_request false (initState Nat 0) categorizedWithError 1
    categorizedErrorState rfl
